import Mathlib

/-!
Verification of the interactive chat-session engine in `src/ChatService.js`.
The definitions below are a shallow embedding of that file: the stateless
helpers become pure functions, the reaction-driven widgets become explicit
state machines over session records, and the asynchronous render path of the
paged widget is modelled by an explicit event loop with a FIFO queue of
issued-but-not-completed edits. Gateway effects (sends, edits, reaction
removals, notes) are recorded as lists so that the theorems can speak about
the calls a run performs.
-/

namespace ChatService

/-- A chat user as it appears in reaction events: an id and a bot flag. -/
structure User where
  id : Nat
  bot : Bool
deriving DecidableEq, Repr

/-- A JavaScript field value of a Song record: a string or a number. -/
inductive JsVal
  | str (s : String)
  | num (n : Int)
deriving DecidableEq, Repr

/-- A Song record: an ordered list of own fields, as a JS object. -/
abbrev Song := List (String × JsVal)

/-- msgType.FAIL from the source. -/
def msgTypeFAIL : String := "fail"

/-- msgType.INFO from the source. -/
def msgTypeINFO : String := "info"

/-- msgType.MUSIC from the source. -/
def msgTypeMUSIC : String := "music"

/-- msgType.SEARCH from the source. -/
def msgTypeSEARCH : String := "search"

/-- The switch inside simpleNote: prefix one line with the glyph of the
given message type (default branch sends the line unchanged). -/
def noteLine (type : String) (line : String) : String :=
  if type = msgTypeINFO then ":information_source: | " ++ line
  else if type = msgTypeMUSIC then ":musical_note: | " ++ line
  else if type = msgTypeSEARCH then ":mag: | " ++ line
  else if type = msgTypeFAIL then ":x: | " ++ line
  else line

/-- The value a note or send resolves to, reduced to the effect its delete
method performs. -/
structure Disposable where
  deleteCalls : List String
deriving DecidableEq, Repr

/-- The stub the source resolves with when the channel is undefined: its
delete method does nothing. -/
def stubDisposable : Disposable := ⟨[]⟩

/-- A real message handle: its delete method issues one Gateway call. -/
def messageDisposable : Disposable := ⟨["delete"]⟩

/-- simpleNote from the source: when the channel is missing, return the
no-op stub without touching the Gateway; otherwise send one formatted line
per line of the text and return the handle of the last send. The first
component lists the channel.send calls performed. -/
def simpleNote (channelPresent : Bool) (text : String) (type : String) :
    List String × Disposable :=
  if channelPresent then
    ((text.splitOn "\n").map (noteLine type), messageDisposable)
  else
    ([], stubDisposable)

/-- send from the source: stub when the channel is missing, otherwise one
channel.send of the content. -/
def send (channelPresent : Bool) (content : String) :
    List String × Disposable :=
  if channelPresent then ([content], messageDisposable)
  else ([], stubDisposable)

/-- postReactionEmojis from the source: react with the head emoji; only
inside the fulfilled continuation recurse on the rest; resolve after the
last emoji, reject on the first failure (aborting the rest). `reactOk`
says which attaches the Gateway acknowledges. Returns the ordered trace of
acknowledged attaches and whether the returned promise resolved. -/
def postReactionEmojis (reactOk : String → Bool) :
    List String → List String × Bool
  | [] => ([], false)
  | e :: rest =>
    if reactOk e then
      if rest.length > 0 then
        let r := postReactionEmojis reactOk rest
        (e :: r.1, r.2)
      else
        ([e], true)
    else
      ([], false)

/-- One iteration of the for-in loop in buildSongEmbed: an own field whose
value is the empty string is overwritten with a dash; every other value is
left as it is. -/
def normalizeField : JsVal → JsVal
  | .str s => .str (if s = "" then "-" else s)
  | .num n => .num n

/-- The whole for-in loop in buildSongEmbed, over every own field of the
song record (keys kept, order kept). -/
def normalizeSong (song : Song) : Song :=
  song.map (fun kv => (kv.1, normalizeField kv.2))

/-- The embed buildSongEmbed constructs: a color and the named fields read
from the (already mutated) song record. -/
structure SongEmbed where
  color : Nat
  fields : List (String × Option JsVal)
deriving DecidableEq, Repr

/-- buildSongEmbed from the source: first mutate the song record in place
(empty-string fields become a dash), then build the embed from the mutated
record. Returns the embed together with the mutated record, which is the
side effect visible to the caller. -/
def buildSongEmbed (song : Song) : SongEmbed × Song :=
  let s := normalizeSong song
  (⟨890629,
    [("Title", s.lookup "title"), ("Artist", s.lookup "artist"),
     ("Requester", s.lookup "requester"), ("Rating", s.lookup "rating"),
     ("Source", s.lookup "src")]⟩,
   s)

/-- A reaction collect event: the emoji, the acting user, and the users
currently listed on that reaction (reaction.users) at collect time. -/
structure ReactionEvent where
  emoji : String
  actor : User
  usersOn : List User
deriving DecidableEq, Repr

/-- Filter of the forward-navigation collector in pagedContent. -/
def nextPred (ownerId : Nat) (emoji : String) (user : User) : Bool :=
  emoji == "⏩" && user.id == ownerId

/-- Filter of the back-navigation collector in pagedContent. -/
def backPred (ownerId : Nat) (emoji : String) (user : User) : Bool :=
  emoji == "⏪" && user.id == ownerId

/-- Filter of the up-vote collector in displaySong. -/
def upPred (emoji : String) (user : User) : Bool :=
  emoji == "⏫" && !user.bot

/-- Filter of the down-vote collector in displaySong. -/
def downPred (emoji : String) (user : User) : Bool :=
  emoji == "⏬" && !user.bot

/-- Filter of the poop-vote collector in displaySong. -/
def poopPred (emoji : String) (user : User) : Bool :=
  emoji == "💩" && !user.bot

/-- State of one paged widget: the cursor, the two collector subscriptions,
the reaction icons on the anchor message, and the recorded Gateway effects
(edit contents and reaction removals). -/
structure PagedSession where
  page : Nat
  nextOpen : Bool
  backOpen : Bool
  icons : List String
  edits : List String
  removed : List Nat
deriving DecidableEq, Repr

/-- The paged session right after the first render and the two attaches. -/
def initPagedSession : PagedSession :=
  ⟨0, true, true, ["⏪", "⏩"], [], []⟩

/-- An event delivered to a paged session: a collect of one of its
collectors, or the end (ttl expiry) of one of them. -/
inductive PagedEvent
  | collect (ev : ReactionEvent)
  | endNext
  | endBack
deriving DecidableEq, Repr

/-- One event of pagedContent. A collect matching the forward filter
removes the author reaction and, only when a further page exists,
increments the cursor and edits the message to the new page; the back
filter mirrors this at the lower bound. An end handler strips all reaction
icons and closes that subscription. -/
def pagedStep (ownerId : Nat) (pages : List String) (s : PagedSession) :
    PagedEvent → PagedSession
  | .collect ev =>
    if nextPred ownerId ev.emoji ev.actor && s.nextOpen then
      let s1 := {s with removed := s.removed ++ [ownerId]}
      if s1.page + 1 < pages.length then
        {s1 with page := s1.page + 1,
                 edits := s1.edits ++ [pages.getD (s1.page + 1) ""]}
      else s1
    else if backPred ownerId ev.emoji ev.actor && s.backOpen then
      let s1 := {s with removed := s.removed ++ [ownerId]}
      if s1.page > 0 then
        {s1 with page := s1.page - 1,
                 edits := s1.edits ++ [pages.getD (s1.page - 1) ""]}
      else s1
    else s
  | .endNext => {s with nextOpen := false, icons := []}
  | .endBack => {s with backOpen := false, icons := []}

/-- Run a paged session over a list of events. -/
def pagedRun (ownerId : Nat) (pages : List String) (s : PagedSession)
    (evs : List PagedEvent) : PagedSession :=
  evs.foldl (pagedStep ownerId pages) s

/-- Entry phase of pagedContent: nothing at all happens when the channel is
undefined; otherwise the first page is sent, the two navigation emojis are
attached in order, and the session is established only when both attaches
are acknowledged. -/
def pagedContentInit (channelPresent : Bool) (reactOk : String → Bool)
    (pages : List String) : List String × Option PagedSession :=
  if channelPresent then
    let attached := postReactionEmojis reactOk ["⏪", "⏩"]
    (("send:" ++ pages.getD 0 "") :: attached.1.map (fun e => "react:" ++ e),
     if attached.2 then some initPagedSession else none)
  else
    ([], none)

/-- Outcome of one call of the external scoring callback processRating:
it resolves (optionally with a note text) or rejects with an error. -/
inductive PrOutcome
  | ok (note : Option String)
  | err (e : String)
deriving DecidableEq, Repr

/-- Effects accumulated by one handleRatingReaction invocation: the current
song record, the reaction removals, the message edits (each recorded as the
song record the rebuilt embed was read from), the notes emitted (type and
text, one entry per simpleNote invocation), and the processRating calls
(user, delta, ignoreCd). -/
structure RatingState where
  song : Song
  removed : List User
  edits : List Song
  notes : List (String × String)
  prCalls : List (User × Int × Bool)
deriving DecidableEq, Repr

/-- The body of the forEach inside handleRatingReaction, for one non-bot
user on the reaction: remove that user from the reaction, call
processRating; on resolve rebuild the embed from the (externally updated)
song record and edit the message with it, then emit a music note when the
callback returned one; on reject emit a fail note and skip the edit. -/
def processVote (pr : User → Int → Bool → PrOutcome)
    (prSong : User → Int → Bool → Song → Song)
    (delta : Int) (ignoreCd : Bool) (st : RatingState) (u : User) :
    RatingState :=
  let st1 := {st with removed := st.removed ++ [u],
                      prCalls := st.prCalls ++ [(u, delta, ignoreCd)]}
  match pr u delta ignoreCd with
  | .ok note =>
    let built := buildSongEmbed (prSong u delta ignoreCd st1.song)
    let st2 := {st1 with song := built.2, edits := st1.edits ++ [built.2]}
    match note with
    | some n => {st2 with notes := st2.notes ++ [(msgTypeMUSIC, n)]}
    | none => st2
  | .err e => {st1 with notes := st1.notes ++ [(msgTypeFAIL, e)]}

/-- handleRatingReaction from the source: filter the users on the reaction
down to the non-bot ones and process each of them in order. -/
def handleRatingReaction (pr : User → Int → Bool → PrOutcome)
    (prSong : User → Int → Bool → Song → Song) (usersOn : List User)
    (song : Song) (delta : Int) (ignoreCd : Bool) : RatingState :=
  (usersOn.filter (fun u => !u.bot)).foldl
    (processVote pr prSong delta ignoreCd) ⟨song, [], [], [], []⟩

/-- Dispatch of one collect event among the three rating collectors of
displaySong: an up vote applies delta 1, a down vote delta -1; a poop vote
first emits the music note and then applies delta -1000 with ignoreCd set.
A non-matching event (wrong emoji, or a bot actor) reaches no handler. -/
def ratingCollectOut (pr : User → Int → Bool → PrOutcome)
    (prSong : User → Int → Bool → Song → Song) (song : Song)
    (ev : ReactionEvent) : RatingState :=
  if upPred ev.emoji ev.actor then
    handleRatingReaction pr prSong ev.usersOn song 1 false
  else if downPred ev.emoji ev.actor then
    handleRatingReaction pr prSong ev.usersOn song (-1) false
  else if poopPred ev.emoji ev.actor then
    let hr := handleRatingReaction pr prSong ev.usersOn song (-1000) true
    {hr with notes := (msgTypeMUSIC, "Let me clean that 💩 for you") :: hr.notes}
  else
    ⟨song, [], [], [], []⟩

/-- State of one rating widget: the song record, the three collector
subscriptions, the reaction icons on the anchor message, and the
accumulated effects. -/
structure RatingSession where
  song : Song
  upOpen : Bool
  downOpen : Bool
  poopOpen : Bool
  icons : List String
  removed : List User
  edits : List Song
  notes : List (String × String)
  prCalls : List (User × Int × Bool)
deriving DecidableEq, Repr

/-- The rating session right after the first render and the three
attaches. -/
def initRatingSession (song : Song) : RatingSession :=
  ⟨song, true, true, true, ["⏫", "⏬", "💩"], [], [], [], []⟩

/-- An event delivered to a rating session: a collect, or the end (ttl
expiry) of one of the three collectors. -/
inductive RatingEvent
  | collect (ev : ReactionEvent)
  | endUp
  | endDown
  | endPoop
deriving DecidableEq, Repr

/-- End events of a rating session. -/
def isRatingEnd : RatingEvent → Bool
  | .collect _ => false
  | .endUp => true
  | .endDown => true
  | .endPoop => true

/-- End events of a paged session. -/
def isPagedEnd : PagedEvent → Bool
  | .collect _ => false
  | .endNext => true
  | .endBack => true

/-- One event of displaySong. A collect is delivered to a collector only
while that collector is open; an end handler strips all reaction icons and
closes that subscription. No collect handler ever closes a subscription. -/
def ratingStep (pr : User → Int → Bool → PrOutcome)
    (prSong : User → Int → Bool → Song → Song) (s : RatingSession) :
    RatingEvent → RatingSession
  | .collect ev =>
    if (upPred ev.emoji ev.actor && s.upOpen) ||
       (downPred ev.emoji ev.actor && s.downOpen) ||
       (poopPred ev.emoji ev.actor && s.poopOpen) then
      let out := ratingCollectOut pr prSong s.song ev
      {s with song := out.song,
              removed := s.removed ++ out.removed,
              edits := s.edits ++ out.edits,
              notes := s.notes ++ out.notes,
              prCalls := s.prCalls ++ out.prCalls}
    else s
  | .endUp => {s with upOpen := false, icons := []}
  | .endDown => {s with downOpen := false, icons := []}
  | .endPoop => {s with poopOpen := false, icons := []}

/-- Run a rating session over a list of events. -/
def ratingRun (pr : User → Int → Bool → PrOutcome)
    (prSong : User → Int → Bool → Song → Song) (s : RatingSession)
    (evs : List RatingEvent) : RatingSession :=
  evs.foldl (ratingStep pr prSong) s

/-- Entry phase of displaySong: nothing at all happens when the channel is
undefined; otherwise the song embed is built (mutating the record) and
sent, the three rating emojis are attached in order, and the session is
established only when all attaches are acknowledged. -/
def displaySongInit (channelPresent : Bool) (reactOk : String → Bool)
    (song : Song) : List String × Option RatingSession :=
  if channelPresent then
    let attached := postReactionEmojis reactOk ["⏫", "⏬", "💩"]
    ("send:embed" :: attached.1.map (fun e => "react:" ++ e),
     if attached.2 then some (initRatingSession (buildSongEmbed song).2)
     else none)
  else
    ([], none)

/-- Event-loop view of a paged session, used to examine the asynchrony of
the render path: `pending` is the FIFO queue of edits that were issued by
a collect handler but whose Gateway acknowledgement has not arrived yet,
`displayed` is the content of the last completed render, and `completed`
counts completed renders. -/
structure LoopState where
  page : Nat
  pending : List String
  displayed : String
  completed : Nat
deriving DecidableEq, Repr

/-- Loop state right after the initial render of page 0. -/
def initLoopState (pages : List String) : LoopState :=
  ⟨0, [], pages.getD 0 "", 0⟩

/-- An event on the cooperative event loop: the synchronous dispatch of a
collect handler, or the completion of the oldest issued render. -/
inductive LoopEvent
  | collect (ev : ReactionEvent)
  | renderComplete
deriving DecidableEq, Repr

/-- One event-loop step of pagedContent. A collect handler runs
synchronously at dispatch: it mutates the cursor and appends its edit call
to the queue of issued renders without waiting for any earlier render. A
renderComplete delivers the acknowledgement of the oldest issued edit. -/
def loopStep (ownerId : Nat) (pages : List String) (s : LoopState) :
    LoopEvent → LoopState
  | .collect ev =>
    if nextPred ownerId ev.emoji ev.actor then
      if s.page + 1 < pages.length then
        {s with page := s.page + 1,
                pending := s.pending ++ [pages.getD (s.page + 1) ""]}
      else s
    else if backPred ownerId ev.emoji ev.actor then
      if s.page > 0 then
        {s with page := s.page - 1,
                pending := s.pending ++ [pages.getD (s.page - 1) ""]}
      else s
    else s
  | .renderComplete =>
    match s.pending with
    | [] => s
    | c :: rest =>
      {s with pending := rest, displayed := c,
              completed := s.completed + 1}

/-- Run the event-loop view over a list of loop events. -/
def loopRun (ownerId : Nat) (pages : List String) (s : LoopState)
    (evs : List LoopEvent) : LoopState :=
  evs.foldl (loopStep ownerId pages) s

/-- A concrete non-bot user, for witnesses and counterexamples. -/
def demoUser : User := ⟨7, false⟩

/-- A concrete song record with one empty-string field. -/
def demoSong : Song :=
  [("title", .str "A"), ("artist", .str ""), ("requester", .str "U"),
   ("rating", .num 0), ("src", .str "yt")]

/-- A scoring callback that always resolves without a note. -/
def demoPrOk : User → Int → Bool → PrOutcome := fun _ _ _ => .ok none

/-- A scoring callback that always rejects. -/
def demoPrErr : User → Int → Bool → PrOutcome := fun _ _ _ => .err "boom"

/-- A scoring effect on the song record that changes nothing. -/
def demoPrSong : User → Int → Bool → Song → Song := fun _ _ _ s => s

/-- A concrete poop-vote event by the demo user. -/
def demoFlagEvent : ReactionEvent := ⟨"💩", demoUser, [demoUser]⟩

/-- A concrete up-vote event by the demo user. -/
def demoUpEvent : ReactionEvent := ⟨"⏫", demoUser, [demoUser]⟩

/-- Concrete pages for the paged-session witnesses. -/
def demoPages : List String := ["p0", "p1", "p2"]

/-- The demo session owner. -/
def demoOwner : User := ⟨1, false⟩

/-- A forward-navigation event by the demo owner. -/
def demoFwdEvent : ReactionEvent := ⟨"⏩", demoOwner, []⟩

/-- Loop-state invariant: the newest issued render, when one is still
pending, carries the page under the current cursor (every cursor mutation
issues the render of the new page in the same synchronous handler). -/
def pendingInv (pages : List String) (s : LoopState) : Prop :=
  s.pending = [] ∨ s.pending.getLast? = some (pages.getD s.page "")

theorem takeWhile_of_all {p : String → Bool} :
    ∀ l : List String, (∀ x ∈ l, p x = true) → l.takeWhile p = l := by
  intro l
  induction l with
  | nil => intro _; rfl
  | cons e rest ih =>
    intro h
    have he := h e (by simp)
    simp [List.takeWhile_cons, he, ih (fun x hx => h x (by simp [hx]))]

theorem postReactionEmojis_cons_cons (reactOk : String → Bool) (e : String)
    (f : String) (rs : List String) :
    postReactionEmojis reactOk (e :: f :: rs) =
      if reactOk e then
        (e :: (postReactionEmojis reactOk (f :: rs)).1,
         (postReactionEmojis reactOk (f :: rs)).2)
      else ([], false) := by
  by_cases hre : reactOk e <;> simp [postReactionEmojis, hre]

theorem postReactionEmojis_eq (reactOk : String → Bool) :
    ∀ l : List String, l ≠ [] →
      postReactionEmojis reactOk l = (l.takeWhile reactOk, l.all reactOk) := by
  intro l
  induction l with
  | nil => intro h; exact absurd rfl h
  | cons e rest ih =>
    intro _
    cases rest with
    | nil =>
      by_cases hre : reactOk e <;>
        simp [postReactionEmojis, hre, List.takeWhile_cons]
    | cons f rs =>
      have hr := ih (by simp)
      rw [postReactionEmojis_cons_cons, hr]
      by_cases hre : reactOk e <;> simp [hre, List.takeWhile_cons]

/-- C4: given an ordered list of emoji symbols, the attacher performs the
acknowledged attaches exactly along the longest successful prefix of the
list (so attaches happen in list order and stop at the first failure with
no further attach), it resolves exactly when every attach succeeded, a
resolution implies the whole list was attached, and the attach trace is a
prefix of the requested list. -/
theorem postReactionEmojis_ordered_strict (reactOk : String → Bool)
    (l : List String) (h : l ≠ []) :
    (postReactionEmojis reactOk l).1 = l.takeWhile reactOk ∧
    ((postReactionEmojis reactOk l).2 = true ↔ l.all reactOk = true) ∧
    ((postReactionEmojis reactOk l).2 = true →
      (postReactionEmojis reactOk l).1 = l) ∧
    (∃ t, (postReactionEmojis reactOk l).1 ++ t = l) := by
  have he := postReactionEmojis_eq reactOk l h
  rw [he]
  refine ⟨rfl, Iff.rfl, ?_, ?_⟩
  · intro hall
    have hmem := List.all_eq_true.mp hall
    exact takeWhile_of_all l hmem
  · refine ⟨l.dropWhile reactOk, ?_⟩
    simp [List.takeWhile_append_dropWhile]

theorem postReactionEmojis_ordered_strict_witness :
    (postReactionEmojis (fun _ => true) ["⏪", "⏩"]).1 = ["⏪", "⏩"] :=
  (postReactionEmojis_ordered_strict (fun _ => true) ["⏪", "⏩"]
    (by decide)).2.2.1 (by decide)

/-- C8: when the channel of the invoking message is unavailable, every core
operation degrades to a no-op instead of throwing: no Gateway call is
performed, no session is established, and simpleNote and send resolve with
the disposable stub whose delete does nothing. -/
theorem channel_unavailable_noop (text : String) (type : String)
    (content : String) (reactOk : String → Bool) (pages : List String)
    (song : Song) :
    simpleNote false text type = ([], stubDisposable) ∧
    send false content = ([], stubDisposable) ∧
    pagedContentInit false reactOk pages = ([], none) ∧
    displaySongInit false reactOk song = ([], none) ∧
    stubDisposable.deleteCalls = [] :=
  ⟨rfl, rfl, rfl, rfl, rfl⟩

theorem pagedStep_page_lt (ownerId : Nat) (pages : List String)
    (s : PagedSession) (e : PagedEvent) (h : s.page < pages.length) :
    (pagedStep ownerId pages s e).page < pages.length := by
  obtain ⟨pg, no, bo, ic, ed, rm⟩ := s
  dsimp only at h
  cases e with
  | collect ev =>
    dsimp only [pagedStep]
    split
    · split <;> dsimp only <;> omega
    · split
      · split <;> dsimp only <;> omega
      · exact h
  | endNext => exact h
  | endBack => exact h

theorem pagedRun_page_lt (ownerId : Nat) (pages : List String)
    (evs : List PagedEvent) :
    ∀ s : PagedSession, s.page < pages.length →
      (pagedRun ownerId pages s evs).page < pages.length := by
  induction evs with
  | nil => intro s h; exact h
  | cons e rest ih =>
    intro s h
    simp only [pagedRun, List.foldl_cons]
    exact ih _ (pagedStep_page_lt ownerId pages s e h)

theorem pagedStep_fwd_boundary (ownerId : Nat) (pages : List String)
    (s : PagedSession) (ev : ReactionEvent) (hemoji : ev.emoji = "⏩")
    (hb : pages.length ≤ s.page + 1) :
    (pagedStep ownerId pages s (PagedEvent.collect ev)).page = s.page ∧
    (pagedStep ownerId pages s (PagedEvent.collect ev)).edits = s.edits := by
  have hback : backPred ownerId ev.emoji ev.actor = false := by
    simp [backPred, hemoji]
  obtain ⟨pg, no, bo, ic, ed, rm⟩ := s
  dsimp only at hb
  dsimp only [pagedStep]
  rw [hback]
  split
  · split
    · dsimp only at *; omega
    · exact ⟨rfl, rfl⟩
  · simp

theorem pagedStep_back_boundary (ownerId : Nat) (pages : List String)
    (s : PagedSession) (ev : ReactionEvent) (hemoji : ev.emoji = "⏪")
    (hb : s.page = 0) :
    (pagedStep ownerId pages s (PagedEvent.collect ev)).page = s.page ∧
    (pagedStep ownerId pages s (PagedEvent.collect ev)).edits = s.edits := by
  have hnext : nextPred ownerId ev.emoji ev.actor = false := by
    simp [nextPred, hemoji]
  obtain ⟨pg, no, bo, ic, ed, rm⟩ := s
  dsimp only at hb
  dsimp only [pagedStep]
  rw [hnext]
  simp only [Bool.false_and, Bool.false_eq_true, if_false]
  split
  · split
    · dsimp only at *; omega
    · exact ⟨rfl, rfl⟩
  · exact ⟨rfl, rfl⟩

/-- C2: starting a paged session on a non-empty page list, the cursor stays
within bounds under every sequence of navigation and end events; moreover a
forward reaction when no further page exists and a back reaction on the
first page leave the cursor unchanged and issue no edit call. -/
theorem paged_cursor_bounds (ownerId : Nat) (pages : List String)
    (evs : List PagedEvent) (h : pages ≠ []) :
    (pagedRun ownerId pages initPagedSession evs).page < pages.length ∧
    (∀ s : PagedSession, ∀ ev : ReactionEvent, ev.emoji = "⏩" →
      pages.length ≤ s.page + 1 →
      (pagedStep ownerId pages s (PagedEvent.collect ev)).page = s.page ∧
      (pagedStep ownerId pages s (PagedEvent.collect ev)).edits = s.edits) ∧
    (∀ s : PagedSession, ∀ ev : ReactionEvent, ev.emoji = "⏪" →
      s.page = 0 →
      (pagedStep ownerId pages s (PagedEvent.collect ev)).page = s.page ∧
      (pagedStep ownerId pages s (PagedEvent.collect ev)).edits = s.edits) := by
  refine ⟨?_, ?_, ?_⟩
  · exact pagedRun_page_lt ownerId pages evs initPagedSession
      (List.length_pos.mpr h)
  · intro s ev hemoji hb
    exact pagedStep_fwd_boundary ownerId pages s ev hemoji hb
  · intro s ev hemoji hb
    exact pagedStep_back_boundary ownerId pages s ev hemoji hb

theorem paged_cursor_bounds_witness :
    (pagedRun 1 demoPages initPagedSession
      [PagedEvent.collect demoFwdEvent]).page < demoPages.length :=
  (paged_cursor_bounds 1 demoPages [PagedEvent.collect demoFwdEvent]
    (by decide)).1

/-- C6: a navigation reaction by any user other than the session owner is
rejected by both collector filters and changes nothing at all: the whole
session state (cursor, edits, subscriptions, removals) is untouched. -/
theorem paged_owner_only (ownerId : Nat) (pages : List String)
    (s : PagedSession) (ev : ReactionEvent) (h : ev.actor.id ≠ ownerId) :
    pagedStep ownerId pages s (PagedEvent.collect ev) = s := by
  have hbeq : (ev.actor.id == ownerId) = false := by simpa using h
  dsimp only [pagedStep]
  simp [nextPred, backPred, hbeq]

theorem paged_owner_only_witness :
    pagedStep 1 demoPages initPagedSession (PagedEvent.collect demoFlagEvent)
      = initPagedSession :=
  paged_owner_only 1 demoPages initPagedSession demoFlagEvent (by decide)

theorem loopStep_inv (ownerId : Nat) (pages : List String) (s : LoopState)
    (e : LoopEvent) (h : pendingInv pages s) :
    pendingInv pages (loopStep ownerId pages s e) := by
  obtain ⟨pg, pe, di, co⟩ := s
  cases e with
  | collect ev =>
    dsimp only [loopStep]
    split
    · split
      · right
        simp [List.getLast?_concat]
      · exact h
    · split
      · split
        · right
          simp [List.getLast?_concat]
        · exact h
      · exact h
  | renderComplete =>
    dsimp only [loopStep]
    cases pe with
    | nil => exact h
    | cons c rest =>
      dsimp only
      rcases h with h0 | h1
      · exact absurd h0 (by simp)
      · dsimp only [pendingInv] at h1 ⊢
        cases rest with
        | nil => exact Or.inl rfl
        | cons d ds =>
          right
          rw [List.getLast?_cons_cons] at h1
          exact h1

theorem loopRun_inv (ownerId : Nat) (pages : List String)
    (evs : List LoopEvent) :
    ∀ s : LoopState, pendingInv pages s →
      pendingInv pages (loopRun ownerId pages s evs) := by
  induction evs with
  | nil => intro s h; exact h
  | cons e rest ih =>
    intro s h
    simp only [loopRun, List.foldl_cons]
    exact ih _ (loopStep_inv ownerId pages s e h)

theorem loop_drain (ownerId : Nat) (pages : List String) :
    ∀ (p : List String) (s : LoopState), s.pending = p →
      (loopRun ownerId pages s
        (List.replicate p.length LoopEvent.renderComplete)).pending = [] ∧
      (loopRun ownerId pages s
        (List.replicate p.length LoopEvent.renderComplete)).page = s.page ∧
      (loopRun ownerId pages s
        (List.replicate p.length LoopEvent.renderComplete)).displayed
        = p.getLastD s.displayed := by
  intro p
  induction p with
  | nil =>
    intro s h
    exact ⟨h, rfl, rfl⟩
  | cons c rest ih =>
    intro s h
    obtain ⟨pg, pe, di, co⟩ := s
    dsimp only at h ⊢
    subst h
    simp only [List.length_cons, List.replicate_succ, loopRun,
      List.foldl_cons]
    have hstep :
        loopStep ownerId pages ⟨pg, c :: rest, di, co⟩
          LoopEvent.renderComplete = ⟨pg, rest, c, co + 1⟩ := rfl
    rw [hstep, List.getLastD_cons]
    exact ih ⟨pg, rest, c, co + 1⟩ rfl

/-- C3 counterexample: with pages p0 p1 p2, two forward reactions by the
session owner whose renders have not yet completed leave the loop with the
cursor already advanced twice while zero renders have completed and both
edits are still pending: the second event was processed, and its state
mutation applied, before the render triggered by the first event completed,
so reaction processing is not serialized per session. -/
theorem nav_serialization_counterexample :
    (loopRun 1 demoPages (initLoopState demoPages)
      [LoopEvent.collect demoFwdEvent,
       LoopEvent.collect demoFwdEvent]).page = 2 ∧
    (loopRun 1 demoPages (initLoopState demoPages)
      [LoopEvent.collect demoFwdEvent,
       LoopEvent.collect demoFwdEvent]).completed = 0 ∧
    (loopRun 1 demoPages (initLoopState demoPages)
      [LoopEvent.collect demoFwdEvent,
       LoopEvent.collect demoFwdEvent]).pending = ["p1", "p2"] := by
  refine ⟨rfl, rfl, rfl⟩

/-- C3 amended: reaction handlers run synchronously at event dispatch, so a
second event for the same session can mutate the cursor before the render
issued by the first completes; the issued renders are acknowledged in issue
(FIFO) order, and once every issued render has completed the displayed
content is the page under the final cursor, so the final rendered state
reflects all deltas applied in arrival order. -/
theorem nav_event_loop_amended (ownerId : Nat) (pages : List String)
    (evs : List LoopEvent)
    (hpend : (loopRun ownerId pages (initLoopState pages) evs).pending
      ≠ []) :
    (loopRun ownerId pages (loopRun ownerId pages (initLoopState pages) evs)
      (List.replicate (loopRun ownerId pages (initLoopState pages)
        evs).pending.length LoopEvent.renderComplete)).pending = [] ∧
    (loopRun ownerId pages (loopRun ownerId pages (initLoopState pages) evs)
      (List.replicate (loopRun ownerId pages (initLoopState pages)
        evs).pending.length LoopEvent.renderComplete)).page
      = (loopRun ownerId pages (initLoopState pages) evs).page ∧
    (loopRun ownerId pages (loopRun ownerId pages (initLoopState pages) evs)
      (List.replicate (loopRun ownerId pages (initLoopState pages)
        evs).pending.length LoopEvent.renderComplete)).displayed
      = pages.getD (loopRun ownerId pages (initLoopState pages) evs).page
          "" := by
  have hinv : pendingInv pages (loopRun ownerId pages (initLoopState pages)
      evs) :=
    loopRun_inv ownerId pages evs (initLoopState pages) (Or.inl rfl)
  have hdrain := loop_drain ownerId pages
    (loopRun ownerId pages (initLoopState pages) evs).pending
    (loopRun ownerId pages (initLoopState pages) evs) rfl
  refine ⟨hdrain.1, hdrain.2.1, ?_⟩
  rcases hinv with h0 | h1
  · exact absurd h0 hpend
  · rw [hdrain.2.2, List.getLastD_eq_getLast?, h1]
    rfl

theorem nav_event_loop_amended_witness :
    (loopRun 1 demoPages
      (loopRun 1 demoPages (initLoopState demoPages)
        [LoopEvent.collect demoFwdEvent])
      (List.replicate (loopRun 1 demoPages (initLoopState demoPages)
        [LoopEvent.collect demoFwdEvent]).pending.length
        LoopEvent.renderComplete)).displayed = "p1" := by
  have h := nav_event_loop_amended 1 demoPages
    [LoopEvent.collect demoFwdEvent] (by decide)
  exact h.2.2

theorem processVote_removed (pr : User → Int → Bool → PrOutcome)
    (prSong : User → Int → Bool → Song → Song) (d : Int) (c : Bool)
    (st : RatingState) (u : User) :
    (processVote pr prSong d c st u).removed = st.removed ++ [u] := by
  cases hp : pr u d c with
  | ok note => cases note <;> simp [processVote, hp]
  | err e => simp [processVote, hp]

theorem processVote_prCalls (pr : User → Int → Bool → PrOutcome)
    (prSong : User → Int → Bool → Song → Song) (d : Int) (c : Bool)
    (st : RatingState) (u : User) :
    (processVote pr prSong d c st u).prCalls
      = st.prCalls ++ [(u, d, c)] := by
  cases hp : pr u d c with
  | ok note => cases note <;> simp [processVote, hp]
  | err e => simp [processVote, hp]

theorem processVote_notes_ok_none (pr : User → Int → Bool → PrOutcome)
    (prSong : User → Int → Bool → Song → Song) (d : Int) (c : Bool)
    (st : RatingState) (u : User) (hp : pr u d c = PrOutcome.ok none) :
    (processVote pr prSong d c st u).notes = st.notes := by
  simp [processVote, hp]

theorem processVote_ok_song (pr : User → Int → Bool → PrOutcome)
    (prSong : User → Int → Bool → Song → Song) (d : Int) (c : Bool)
    (st : RatingState) (u : User) (note : Option String)
    (hp : pr u d c = PrOutcome.ok note) :
    (processVote pr prSong d c st u).song
      = (buildSongEmbed (prSong u d c st.song)).2 := by
  cases note <;> simp [processVote, hp]

theorem processVote_err (pr : User → Int → Bool → PrOutcome)
    (prSong : User → Int → Bool → Song → Song) (d : Int) (c : Bool)
    (st : RatingState) (u : User) (e : String)
    (hp : pr u d c = PrOutcome.err e) :
    (processVote pr prSong d c st u).song = st.song ∧
    (processVote pr prSong d c st u).edits = st.edits ∧
    (processVote pr prSong d c st u).notes
      = st.notes ++ [(msgTypeFAIL, e)] := by
  simp [processVote, hp]

theorem foldl_processVote_removed (pr : User → Int → Bool → PrOutcome)
    (prSong : User → Int → Bool → Song → Song) (d : Int) (c : Bool) :
    ∀ (users : List User) (st : RatingState),
      (users.foldl (processVote pr prSong d c) st).removed
        = st.removed ++ users := by
  intro users
  induction users with
  | nil => intro st; simp
  | cons u rest ih =>
    intro st
    simp only [List.foldl_cons]
    rw [ih, processVote_removed]
    simp

theorem foldl_processVote_prCalls (pr : User → Int → Bool → PrOutcome)
    (prSong : User → Int → Bool → Song → Song) (d : Int) (c : Bool) :
    ∀ (users : List User) (st : RatingState),
      (users.foldl (processVote pr prSong d c) st).prCalls
        = st.prCalls ++ users.map (fun u => (u, d, c)) := by
  intro users
  induction users with
  | nil => intro st; simp
  | cons u rest ih =>
    intro st
    simp only [List.foldl_cons]
    rw [ih, processVote_prCalls]
    simp

theorem foldl_processVote_notes_ok_none (pr : User → Int → Bool → PrOutcome)
    (prSong : User → Int → Bool → Song → Song) (d : Int) (c : Bool)
    (hpr : ∀ u : User, pr u d c = PrOutcome.ok none) :
    ∀ (users : List User) (st : RatingState),
      (users.foldl (processVote pr prSong d c) st).notes = st.notes := by
  intro users
  induction users with
  | nil => intro st; rfl
  | cons u rest ih =>
    intro st
    simp only [List.foldl_cons]
    rw [ih, processVote_notes_ok_none pr prSong d c st u (hpr u)]

theorem handleRatingReaction_removed (pr : User → Int → Bool → PrOutcome)
    (prSong : User → Int → Bool → Song → Song) (users : List User)
    (song : Song) (d : Int) (c : Bool) :
    (handleRatingReaction pr prSong users song d c).removed
      = users.filter (fun u => !u.bot) := by
  unfold handleRatingReaction
  rw [foldl_processVote_removed]
  rfl

theorem handleRatingReaction_prCalls (pr : User → Int → Bool → PrOutcome)
    (prSong : User → Int → Bool → Song → Song) (users : List User)
    (song : Song) (d : Int) (c : Bool) :
    (handleRatingReaction pr prSong users song d c).prCalls
      = (users.filter (fun u => !u.bot)).map (fun u => (u, d, c)) := by
  unfold handleRatingReaction
  rw [foldl_processVote_prCalls]
  rfl

theorem handleRatingReaction_notes_ok_none
    (pr : User → Int → Bool → PrOutcome)
    (prSong : User → Int → Bool → Song → Song) (users : List User)
    (song : Song) (d : Int) (c : Bool)
    (hpr : ∀ u : User, pr u d c = PrOutcome.ok none) :
    (handleRatingReaction pr prSong users song d c).notes = [] := by
  unfold handleRatingReaction
  rw [foldl_processVote_notes_ok_none pr prSong d c hpr]

theorem handleRatingReaction_err_singleton
    (pr : User → Int → Bool → PrOutcome)
    (prSong : User → Int → Bool → Song → Song) (u : User) (song : Song)
    (d : Int) (c : Bool) (e : String) (hbot : u.bot = false)
    (hpr : pr u d c = PrOutcome.err e) :
    (handleRatingReaction pr prSong [u] song d c).edits = [] ∧
    (handleRatingReaction pr prSong [u] song d c).song = song ∧
    (handleRatingReaction pr prSong [u] song d c).notes
      = [(msgTypeFAIL, e)] := by
  unfold handleRatingReaction
  simp [hbot, processVote, hpr]

theorem ratingStep_collect_flags (pr : User → Int → Bool → PrOutcome)
    (prSong : User → Int → Bool → Song → Song) (s : RatingSession)
    (ev : ReactionEvent) :
    (ratingStep pr prSong s (RatingEvent.collect ev)).upOpen = s.upOpen ∧
    (ratingStep pr prSong s (RatingEvent.collect ev)).downOpen
      = s.downOpen ∧
    (ratingStep pr prSong s (RatingEvent.collect ev)).poopOpen
      = s.poopOpen := by
  dsimp only [ratingStep]
  split <;> exact ⟨rfl, rfl, rfl⟩

theorem normalizeField_ne_empty (v : JsVal) (h : v ≠ JsVal.str "") :
    normalizeField v = v := by
  cases v with
  | str s =>
    have hs : s ≠ "" := by
      intro hc
      exact h (by rw [hc])
    simp [normalizeField, hs]
  | num n => rfl

theorem lookup_normalizeSong_empty :
    ∀ (song : Song) (k : String), song.lookup k = some (JsVal.str "") →
      (normalizeSong song).lookup k = some (JsVal.str "-") := by
  intro song
  induction song with
  | nil => intro k h; simp [List.lookup] at h
  | cons kv rest ih =>
    intro k h
    obtain ⟨a, b⟩ := kv
    simp only [normalizeSong, List.map_cons, List.lookup_cons] at h ⊢
    cases hk : k == a with
    | true =>
      rw [hk] at h
      dsimp only at h ⊢
      obtain rfl : b = JsVal.str "" := by injection h
      simp [normalizeField]
    | false =>
      rw [hk] at h
      dsimp only at h ⊢
      exact ih k h

theorem lookup_normalizeSong_keep :
    ∀ (song : Song) (k : String) (v : JsVal), song.lookup k = some v →
      v ≠ JsVal.str "" →
      (normalizeSong song).lookup k = some v := by
  intro song
  induction song with
  | nil => intro k v h; simp [List.lookup] at h
  | cons kv rest ih =>
    intro k v h hv
    obtain ⟨a, b⟩ := kv
    simp only [normalizeSong, List.map_cons, List.lookup_cons] at h ⊢
    cases hk : k == a with
    | true =>
      rw [hk] at h
      dsimp only at h ⊢
      obtain rfl : b = v := by injection h
      rw [normalizeField_ne_empty _ hv]
    | false =>
      rw [hk] at h
      dsimp only at h ⊢
      exact ih k v h hv

/-- C1 counterexample: after a flag (poop) vote by a non-bot user on a
fresh rating session, all three reaction subscriptions are still open —
no handler ever stops a collector — so the claim that a flag vote
transitions the session to the terminal Closed state and leaves no open
subscriptions is false on the code. -/
theorem flag_vote_counterexample :
    (ratingStep demoPrOk demoPrSong (initRatingSession demoSong)
      (RatingEvent.collect demoFlagEvent)).upOpen = true ∧
    (ratingStep demoPrOk demoPrSong (initRatingSession demoSong)
      (RatingEvent.collect demoFlagEvent)).downOpen = true ∧
    (ratingStep demoPrOk demoPrSong (initRatingSession demoSong)
      (RatingEvent.collect demoFlagEvent)).poopOpen = true :=
  ⟨rfl, rfl, rfl⟩

/-- C1 amended: a flag (poop) vote removes the acting non-bot user from the
reaction and emits exactly one music-kind note (the cleaning note, when the
scoring callback resolves without a note of its own), but it does not
terminate the session: the collect handler closes no subscription, so all
three reaction subscriptions keep whatever open state they had and the
session stays Active until the collector ttls expire. -/
theorem flag_vote_amended (pr : User → Int → Bool → PrOutcome)
    (prSong : User → Int → Bool → Song → Song) (s : RatingSession)
    (ev : ReactionEvent) (hemoji : ev.emoji = "💩")
    (hbot : ev.actor.bot = false) (hmem : ev.actor ∈ ev.usersOn)
    (hpr : ∀ u : User, ∀ d : Int, ∀ c : Bool,
      pr u d c = PrOutcome.ok none) :
    ev.actor ∈ (ratingCollectOut pr prSong s.song ev).removed ∧
    (ratingCollectOut pr prSong s.song ev).notes
      = [(msgTypeMUSIC, "Let me clean that 💩 for you")] ∧
    (ratingStep pr prSong s (RatingEvent.collect ev)).upOpen = s.upOpen ∧
    (ratingStep pr prSong s (RatingEvent.collect ev)).downOpen
      = s.downOpen ∧
    (ratingStep pr prSong s (RatingEvent.collect ev)).poopOpen
      = s.poopOpen := by
  have hup : upPred ev.emoji ev.actor = false := by
    simp [upPred, hemoji]
  have hdown : downPred ev.emoji ev.actor = false := by
    simp [downPred, hemoji]
  have hpoop : poopPred ev.emoji ev.actor = true := by
    simp [poopPred, hemoji, hbot]
  have hout : ratingCollectOut pr prSong s.song ev =
      {handleRatingReaction pr prSong ev.usersOn s.song (-1000) true with
        notes := (msgTypeMUSIC, "Let me clean that 💩 for you") ::
          (handleRatingReaction pr prSong ev.usersOn s.song
            (-1000) true).notes} := by
    simp [ratingCollectOut, hup, hdown, hpoop]
  have hflags := ratingStep_collect_flags pr prSong s ev
  refine ⟨?_, ?_, hflags.1, hflags.2.1, hflags.2.2⟩
  · rw [hout]
    dsimp only
    rw [handleRatingReaction_removed]
    exact List.mem_filter.mpr ⟨hmem, by simp [hbot]⟩
  · rw [hout]
    dsimp only
    rw [handleRatingReaction_notes_ok_none pr prSong ev.usersOn s.song
      (-1000) true (fun u => hpr u (-1000) true)]

theorem flag_vote_amended_witness :
    demoUser ∈ (ratingCollectOut demoPrOk demoPrSong demoSong
      demoFlagEvent).removed ∧
    (ratingCollectOut demoPrOk demoPrSong demoSong demoFlagEvent).notes
      = [(msgTypeMUSIC, "Let me clean that 💩 for you")] := by
  have h := flag_vote_amended demoPrOk demoPrSong
    (initRatingSession demoSong) demoFlagEvent rfl rfl (by decide)
    (fun u d c => rfl)
  exact ⟨h.1, h.2.1⟩

theorem mem_handle_prCalls (pr : User → Int → Bool → PrOutcome)
    (prSong : User → Int → Bool → Song → Song) (users : List User)
    (song : Song) (d0 : Int) (c0 : Bool) (u : User) (d : Int) (c : Bool)
    (h : (u, d, c) ∈ (handleRatingReaction pr prSong users song
      d0 c0).prCalls) :
    u.bot = false ∧ d = d0 := by
  rw [handleRatingReaction_prCalls] at h
  obtain ⟨a, ha, heq⟩ := List.mem_map.mp h
  obtain ⟨hmem, hba⟩ := List.mem_filter.mp ha
  simp only [Prod.mk.injEq] at heq
  obtain ⟨rfl, hd, hc⟩ := heq
  exact ⟨by simpa using hba, hd.symm⟩

/-- C5: every scoring-callback invocation a reaction event produces carries
a non-bot user (bot authors are filtered before tallying, and a bot actor
matches no collector filter), and its delta is exactly 1, -1, or the flag
floor -1000 — never anything else. -/
theorem rating_delta_values (pr : User → Int → Bool → PrOutcome)
    (prSong : User → Int → Bool → Song → Song) (song : Song)
    (ev : ReactionEvent) (u : User) (d : Int) (c : Bool)
    (h : (u, d, c) ∈ (ratingCollectOut pr prSong song ev).prCalls) :
    u.bot = false ∧ (d = 1 ∨ d = -1 ∨ d = -1000) := by
  dsimp only [ratingCollectOut] at h
  split at h
  · have hm := mem_handle_prCalls pr prSong ev.usersOn song 1 false u d c h
    exact ⟨hm.1, Or.inl hm.2⟩
  · split at h
    · have hm := mem_handle_prCalls pr prSong ev.usersOn song (-1) false
        u d c h
      exact ⟨hm.1, Or.inr (Or.inl hm.2)⟩
    · split at h
      · dsimp only at h
        have hm := mem_handle_prCalls pr prSong ev.usersOn song (-1000)
          true u d c h
        exact ⟨hm.1, Or.inr (Or.inr hm.2)⟩
      · simp at h

theorem rating_delta_values_witness :
    demoUser.bot = false ∧
      ((1 : Int) = 1 ∨ (1 : Int) = -1 ∨ (1 : Int) = -1000) :=
  rating_delta_values demoPrOk demoPrSong demoSong demoUpEvent demoUser 1
    false (by decide)

/-- C7: when the scoring callback rejects a vote, the session stays Active
(no subscription state changes), the re-render is skipped (no edit call,
song record untouched), and exactly one failure-kind note is emitted; the
failure is local to that vote and closes nothing. -/
theorem scoring_failure_local (pr : User → Int → Bool → PrOutcome)
    (prSong : User → Int → Bool → Song → Song) (s : RatingSession)
    (ev : ReactionEvent) (e : String) (hu : ev.usersOn = [ev.actor])
    (hbot : ev.actor.bot = false)
    (hpr : ∀ u : User, ∀ d : Int, ∀ c : Bool, pr u d c = PrOutcome.err e)
    (hvote : ev.emoji = "⏫" ∨ ev.emoji = "⏬" ∨ ev.emoji = "💩") :
    (ratingCollectOut pr prSong s.song ev).edits = [] ∧
    (ratingCollectOut pr prSong s.song ev).song = s.song ∧
    (ratingCollectOut pr prSong s.song ev).notes.filter
      (fun n => n.1 == msgTypeFAIL) = [(msgTypeFAIL, e)] ∧
    (ratingStep pr prSong s (RatingEvent.collect ev)).upOpen = s.upOpen ∧
    (ratingStep pr prSong s (RatingEvent.collect ev)).downOpen
      = s.downOpen ∧
    (ratingStep pr prSong s (RatingEvent.collect ev)).poopOpen
      = s.poopOpen := by
  have hflags := ratingStep_collect_flags pr prSong s ev
  rcases hvote with hv | hv | hv
  · have hh := handleRatingReaction_err_singleton pr prSong ev.actor
      s.song 1 false e hbot (hpr ev.actor 1 false)
    have hout : ratingCollectOut pr prSong s.song ev
        = handleRatingReaction pr prSong [ev.actor] s.song 1 false := by
      simp [ratingCollectOut, upPred, hv, hbot, hu]
    rw [hout]
    refine ⟨hh.1, hh.2.1, ?_, hflags.1, hflags.2.1, hflags.2.2⟩
    rw [hh.2.2]
    simp [msgTypeFAIL]
  · have hh := handleRatingReaction_err_singleton pr prSong ev.actor
      s.song (-1) false e hbot (hpr ev.actor (-1) false)
    have hout : ratingCollectOut pr prSong s.song ev
        = handleRatingReaction pr prSong [ev.actor] s.song (-1) false := by
      simp [ratingCollectOut, upPred, downPred, hv, hbot, hu]
    rw [hout]
    refine ⟨hh.1, hh.2.1, ?_, hflags.1, hflags.2.1, hflags.2.2⟩
    rw [hh.2.2]
    simp [msgTypeFAIL]
  · have hh := handleRatingReaction_err_singleton pr prSong ev.actor
      s.song (-1000) true e hbot (hpr ev.actor (-1000) true)
    have hout : ratingCollectOut pr prSong s.song ev =
        {handleRatingReaction pr prSong [ev.actor] s.song (-1000) true with
          notes := (msgTypeMUSIC, "Let me clean that 💩 for you") ::
            (handleRatingReaction pr prSong [ev.actor] s.song
              (-1000) true).notes} := by
      simp [ratingCollectOut, upPred, downPred, poopPred, hv, hbot, hu]
    rw [hout]
    dsimp only
    refine ⟨hh.1, hh.2.1, ?_, hflags.1, hflags.2.1, hflags.2.2⟩
    rw [hh.2.2]
    simp [msgTypeFAIL, msgTypeMUSIC]

theorem scoring_failure_local_witness :
    (ratingCollectOut demoPrErr demoPrSong demoSong demoUpEvent).edits
      = [] ∧
    (ratingCollectOut demoPrErr demoPrSong demoSong demoUpEvent).notes.filter
      (fun n => n.1 == msgTypeFAIL) = [(msgTypeFAIL, "boom")] := by
  have h := scoring_failure_local demoPrErr demoPrSong
    (initRatingSession demoSong) demoUpEvent "boom" rfl rfl
    (fun u d c => rfl) (Or.inl rfl)
  exact ⟨h.1, h.2.2.1⟩

/-- C9: teardown is idempotent: a second end event (the race between a ttl
expiry and another teardown trigger) leaves every externally observable
component — reaction icons, notes, edits, removals, cursor, song — exactly
as the first teardown left it, the icons being stripped as if torn down
once; no error and no extra note is produced, in both the paged and the
rating machine. -/
theorem teardown_idempotent (pr : User → Int → Bool → PrOutcome)
    (prSong : User → Int → Bool → Song → Song) (ownerId : Nat)
    (pages : List String) (rs : RatingSession) (ps : PagedSession)
    (e1 e2 : RatingEvent) (f1 f2 : PagedEvent)
    (h1 : isRatingEnd e1 = true) (h2 : isRatingEnd e2 = true)
    (g1 : isPagedEnd f1 = true) (g2 : isPagedEnd f2 = true) :
    (ratingStep pr prSong (ratingStep pr prSong rs e1) e2).icons
      = (ratingStep pr prSong rs e1).icons ∧
    (ratingStep pr prSong rs e1).icons = [] ∧
    (ratingStep pr prSong (ratingStep pr prSong rs e1) e2).notes
      = (ratingStep pr prSong rs e1).notes ∧
    (ratingStep pr prSong (ratingStep pr prSong rs e1) e2).edits
      = (ratingStep pr prSong rs e1).edits ∧
    (ratingStep pr prSong (ratingStep pr prSong rs e1) e2).removed
      = (ratingStep pr prSong rs e1).removed ∧
    (ratingStep pr prSong (ratingStep pr prSong rs e1) e2).song
      = (ratingStep pr prSong rs e1).song ∧
    (pagedStep ownerId pages (pagedStep ownerId pages ps f1) f2).icons
      = (pagedStep ownerId pages ps f1).icons ∧
    (pagedStep ownerId pages ps f1).icons = [] ∧
    (pagedStep ownerId pages (pagedStep ownerId pages ps f1) f2).edits
      = (pagedStep ownerId pages ps f1).edits ∧
    (pagedStep ownerId pages (pagedStep ownerId pages ps f1) f2).removed
      = (pagedStep ownerId pages ps f1).removed ∧
    (pagedStep ownerId pages (pagedStep ownerId pages ps f1) f2).page
      = (pagedStep ownerId pages ps f1).page := by
  cases e1 <;> cases e2 <;> cases f1 <;> cases f2 <;>
    simp_all [isRatingEnd, isPagedEnd, ratingStep, pagedStep]

theorem teardown_idempotent_witness :
    (ratingStep demoPrOk demoPrSong
      (ratingStep demoPrOk demoPrSong (initRatingSession demoSong)
        RatingEvent.endUp) RatingEvent.endPoop).icons
      = (ratingStep demoPrOk demoPrSong (initRatingSession demoSong)
          RatingEvent.endUp).icons :=
  (teardown_idempotent demoPrOk demoPrSong 1 demoPages
    (initRatingSession demoSong) initPagedSession RatingEvent.endUp
    RatingEvent.endPoop PagedEvent.endNext PagedEvent.endBack rfl rfl rfl
    rfl).1

/-- C10: building the song embed mutates the caller record: every own
field whose value is the empty string is overwritten with a dash before
the embed is built, every other field keeps its value; and the re-render
after every accepted vote goes through buildSongEmbed again, so the same
mutation is applied to the (externally updated) record on every render. -/
theorem buildSongEmbed_mutation (song : Song) (k : String) :
    ((song.lookup k = some (JsVal.str "") →
      (buildSongEmbed song).2.lookup k = some (JsVal.str "-")) ∧
     (∀ v : JsVal, song.lookup k = some v → v ≠ JsVal.str "" →
      (buildSongEmbed song).2.lookup k = some v)) ∧
    (∀ (pr : User → Int → Bool → PrOutcome)
      (prSong : User → Int → Bool → Song → Song) (d : Int) (c : Bool)
      (st : RatingState) (u : User) (note : Option String),
      pr u d c = PrOutcome.ok note →
      (processVote pr prSong d c st u).song
        = (buildSongEmbed (prSong u d c st.song)).2) := by
  refine ⟨⟨?_, ?_⟩, ?_⟩
  · intro h
    exact lookup_normalizeSong_empty song k h
  · intro v h hv
    exact lookup_normalizeSong_keep song k v h hv
  · intro pr prSong d c st u note hp
    exact processVote_ok_song pr prSong d c st u note hp

theorem buildSongEmbed_mutation_witness :
    (buildSongEmbed demoSong).2.lookup "artist"
      = some (JsVal.str "-") ∧
    (buildSongEmbed demoSong).2.lookup "rating" = some (JsVal.num 0) := by
  have h := buildSongEmbed_mutation demoSong "artist"
  have h2 := buildSongEmbed_mutation demoSong "rating"
  exact ⟨h.1.1 (by decide), h2.1.2 (JsVal.num 0) (by decide) (by decide)⟩

end ChatService
